import Mathlib

/-!
Verification of `guides/distribution.py` (keras-io).

The repository file is a narrated usage guide: a flat sequence of top-level
Python statements (markdown prose cells, imports, assignments of library-call
results, item assignments, and bare call statements).  We embed the script as
a list of statements over a small Python-statement AST that is rich enough to
express every construct actually occurring in the file, together with

* an execution model of CPython's relevant rules (item assignment on a module
  object raises `TypeError`; execution of a module stops at the first
  uncaught exception),
* a frame model of the global Keras distribution state (only
  `keras.distribution.set_distribution` writes it — that is the documented
  interface of the external library),
* semantic values for the `DeviceMesh` / `TensorLayout` objects the script
  constructs, and a model of the variables of the `keras.layers.Dense`
  layers it builds.

Markdown prose cells of the guide are string-literal expression statements in
the Python file; their text is abbreviated to the cell's heading here, since
no property depends on prose content.
-/

namespace KerasDistGuide

/-- Primitive literal or name occurring in the script. -/
inductive Prim where
  | noneV : Prim
  | boolV : Bool → Prim
  | str : String → Prim
  | int : Int → Prim
  /-- decimal literal, e.g. `0.4` is `dec 0 4` -/
  | dec : Nat → Nat → Prim
  | name : String → Prim
  deriving Repr, DecidableEq

/-- Atomic expression: a primitive, or a flat tuple/list of primitives.
Every tuple and list literal in the source file is flat. -/
inductive Atom where
  | prim : Prim → Atom
  | tuple : List Prim → Atom
  | listA : List Prim → Atom
  deriving Repr, DecidableEq

/-- A call argument: optional keyword, atomic value.  Every argument in the
source file is an atom (a name, a literal, or a flat tuple/list). -/
structure Arg where
  kw : Option String
  value : Atom
  deriving Repr, DecidableEq

/-- Expression forms occurring in the script: atoms, attribute access and
calls (possibly chained, e.g. `layers.Flatten()(inputs)`). -/
inductive Expr where
  | atom : Atom → Expr
  | attr : Expr → String → Expr
  | call : Expr → List Arg → Expr
  deriving Repr, DecidableEq

/-- Top-level Python statement forms occurring in the script.  The source
file contains no function or class definition; the two constructors are
included so that their absence is a provable statement about the embedding. -/
inductive Stmt where
  | importMod : String → Option String → Stmt
  | importFrom : String → List (String × Option String) → Stmt
  | assign : String → Expr → Stmt
  | subscriptAssign : String → Atom → Atom → Stmt
  | exprStmt : Expr → Stmt
  | funcDef : String → Stmt
  | classDef : String → Stmt
  deriving Repr, DecidableEq

/-- Name atom. -/
def nm (x : String) : Atom := .prim (.name x)

/-- String atom. -/
def sA (s : String) : Atom := .prim (.str s)

/-- Integer atom. -/
def iA (n : Int) : Atom := .prim (.int n)

/-- Positional argument. -/
def pa (v : Atom) : Arg := ⟨none, v⟩

/-- Keyword argument. -/
def ka (k : String) (v : Atom) : Arg := ⟨some k, v⟩

/-- One-step attribute path `a.b`. -/
def lib1 (a b : String) : Expr := .attr (.atom (nm a)) b

/-- Two-step attribute path `a.b.c`. -/
def lib2 (a b c : String) : Expr := .attr (.attr (.atom (nm a)) b) c

/-- Markdown prose cell: a string-literal expression statement. -/
def docCell (s : String) : Stmt := .exprStmt (.atom (.prim (.str s)))

/-- The statement that attempts `os["KERAS_BACKEND"] = "jax"`
(line 48 of the source). -/
def osBackendAssign : Stmt :=
  .subscriptAssign "os" (sA "KERAS_BACKEND") (sA "jax")

/-- The guide script `guides/distribution.py`, statement by statement in
source order. -/
def script : List Stmt := [
  -- lines 1-8: title docstring
  docCell "Title: Distributed training with Keras 3",
  -- lines 10-25
  docCell "## Introduction",
  -- lines 27-40
  docCell "## How it works",
  -- lines 42-44
  docCell "## Setup",
  -- line 45
  .importMod "os" none,
  -- line 48: os["KERAS_BACKEND"] = "jax"
  osBackendAssign,
  -- lines 50-54
  .importMod "keras" none,
  .importFrom "keras" [("layers", none)],
  .importMod "jax" none,
  .importMod "numpy" (some "np"),
  .importFrom "tensorflow" [("data", some "tf_data")],
  -- lines 56-71
  docCell "## DeviceMesh and TensorLayout",
  -- line 74: devices = jax.devices("gpu")
  .assign "devices" (.call (lib1 "jax" "devices") [pa (sA "gpu")]),
  -- lines 77-79
  .assign "mesh" (.call (lib2 "keras" "distribution" "DeviceMesh")
    [ka "shape" (.tuple [.int 2, .int 4]),
     ka "axis_names" (.listA [.str "data", .str "model"]),
     ka "devices" (nm "devices")]),
  -- line 85
  .assign "layout_2d" (.call (lib2 "keras" "distribution" "TensorLayout")
    [ka "axes" (.tuple [.str "model", .str "data"]),
     ka "device_mesh" (nm "mesh")]),
  -- lines 88-90
  .assign "replicated_layout_4d" (.call (lib2 "keras" "distribution" "TensorLayout")
    [ka "axes" (.tuple [.str "data", .noneV, .noneV, .noneV]),
     ka "device_mesh" (nm "mesh")]),
  -- lines 92-101
  docCell "## Distribution",
  -- lines 103-112
  docCell "## DataParallel",
  -- line 118
  .assign "data_parallel" (.call (lib2 "keras" "distribution" "DataParallel")
    [ka "devices" (nm "devices")]),
  -- lines 121-123
  .assign "mesh_1d" (.call (lib2 "keras" "distribution" "DeviceMesh")
    [ka "shape" (.tuple [.int 8]),
     ka "axis_names" (.listA [.str "data"]),
     ka "devices" (nm "devices")]),
  -- line 124
  .assign "data_parallel" (.call (lib2 "keras" "distribution" "DataParallel")
    [ka "device_mesh" (nm "mesh_1d")]),
  -- line 126
  .assign "inputs" (.call (lib2 "np" "random" "normal")
    [ka "size" (.tuple [.int 128, .int 28, .int 28, .int 1])]),
  -- line 127
  .assign "labels" (.call (lib2 "np" "random" "normal")
    [ka "size" (.tuple [.int 128, .int 10])]),
  -- line 128
  .assign "dataset" (.call
    (.attr (.call (lib2 "tf_data" "Dataset" "from_tensor_slices")
      [pa (.tuple [.name "inputs", .name "labels"])]) "batch")
    [pa (iA 16)]),
  -- line 131
  .exprStmt (.call (lib2 "keras" "distribution" "set_distribution")
    [pa (nm "data_parallel")]),
  -- line 139
  .assign "inputs" (.call (lib1 "layers" "Input")
    [ka "shape" (.tuple [.int 28, .int 28, .int 1])]),
  -- line 140
  .assign "y" (.call (.call (lib1 "layers" "Flatten") []) [pa (nm "inputs")]),
  -- line 141
  .assign "y" (.call (.call (lib1 "layers" "Dense")
    [ka "units" (iA 200), ka "use_bias" (.prim (.boolV false)),
     ka "activation" (sA "relu")]) [pa (nm "y")]),
  -- line 142
  .assign "y" (.call (.call (lib1 "layers" "Dropout")
    [pa (.prim (.dec 0 4))]) [pa (nm "y")]),
  -- line 143
  .assign "y" (.call (.call (lib1 "layers" "Dense")
    [ka "units" (iA 10), ka "activation" (sA "softmax")]) [pa (nm "y")]),
  -- line 144
  .assign "model" (.call (lib1 "keras" "Model")
    [ka "inputs" (nm "inputs"), ka "outputs" (nm "y")]),
  -- lines 146-148
  .exprStmt (.call (lib1 "model" "compile") [ka "loss" (sA "mse")]),
  .exprStmt (.call (lib1 "model" "fit")
    [pa (nm "dataset"), ka "epochs" (iA 3)]),
  .exprStmt (.call (lib1 "model" "evaluate") [pa (nm "dataset")]),
  -- lines 150-179
  docCell "## ModelParallel and LayoutMap",
  -- lines 181-183
  .assign "mesh_2d" (.call (lib2 "keras" "distribution" "DeviceMesh")
    [ka "shape" (.tuple [.int 2, .int 4]),
     ka "axis_names" (.listA [.str "data", .str "model"]),
     ka "devices" (nm "devices")]),
  -- line 184
  .assign "layout_map" (.call (lib2 "keras" "distribution" "LayoutMap")
    [pa (nm "mesh_2d")]),
  -- line 188
  .subscriptAssign "layout_map" (sA "d1/kernel") (.tuple [.noneV, .str "model"]),
  -- line 189
  .subscriptAssign "layout_map" (sA "d1/bias") (.tuple [.str "model"]),
  -- line 192
  .subscriptAssign "layout_map" (sA "d2/output") (.tuple [.str "data", .noneV]),
  -- lines 194-196
  .assign "model_parallel" (.call (lib2 "keras" "distribution" "ModelParallel")
    [pa (nm "mesh_2d"), pa (nm "layout_map"), ka "batch_dim_name" (sA "data")]),
  -- line 198
  .exprStmt (.call (lib2 "keras" "distribution" "set_distribution")
    [pa (nm "model_parallel")]),
  -- line 200
  .assign "inputs" (.call (lib1 "layers" "Input")
    [ka "shape" (.tuple [.int 28, .int 28, .int 1])]),
  -- line 201
  .assign "y" (.call (.call (lib1 "layers" "Flatten") []) [pa (nm "inputs")]),
  -- line 202
  .assign "y" (.call (.call (lib1 "layers" "Dense")
    [ka "units" (iA 200), ka "use_bias" (.prim (.boolV false)),
     ka "activation" (sA "relu"), ka "name" (sA "d1")]) [pa (nm "y")]),
  -- line 203
  .assign "y" (.call (.call (lib1 "layers" "Dropout")
    [pa (.prim (.dec 0 4))]) [pa (nm "y")]),
  -- line 204
  .assign "y" (.call (.call (lib1 "layers" "Dense")
    [ka "units" (iA 10), ka "activation" (sA "softmax"),
     ka "name" (sA "d2")]) [pa (nm "y")]),
  -- line 205
  .assign "model" (.call (lib1 "keras" "Model")
    [ka "inputs" (nm "inputs"), ka "outputs" (nm "y")]),
  -- lines 209-211
  .exprStmt (.call (lib1 "model" "compile") [ka "loss" (sA "mse")]),
  .exprStmt (.call (lib1 "model" "fit")
    [pa (nm "dataset"), ka "epochs" (iA 3)]),
  .exprStmt (.call (lib1 "model" "evaluate") [pa (nm "dataset")]),
  -- lines 213-217
  docCell "It is also easy to change the mesh structure",
  -- lines 219-221
  .assign "full_data_parallel_mesh" (.call (lib2 "keras" "distribution" "DeviceMesh")
    [ka "shape" (.tuple [.int 8, .int 1]),
     ka "axis_names" (.listA [.str "data", .str "model"]),
     ka "devices" (nm "devices")]),
  -- lines 222-224
  .assign "more_data_parallel_mesh" (.call (lib2 "keras" "distribution" "DeviceMesh")
    [ka "shape" (.tuple [.int 4, .int 2]),
     ka "axis_names" (.listA [.str "data", .str "model"]),
     ka "devices" (nm "devices")]),
  -- lines 225-227
  .assign "more_model_parallel_mesh" (.call (lib2 "keras" "distribution" "DeviceMesh")
    [ka "shape" (.tuple [.int 2, .int 4]),
     ka "axis_names" (.listA [.str "data", .str "model"]),
     ka "devices" (nm "devices")]),
  -- lines 228-230
  .assign "full_model_parallel_mesh" (.call (lib2 "keras" "distribution" "DeviceMesh")
    [ka "shape" (.tuple [.int 1, .int 8]),
     ka "axis_names" (.listA [.str "data", .str "model"]),
     ka "devices" (nm "devices")]),
  -- lines 232-240
  docCell "### Further reading"
]

/-! ## Execution model

CPython rules relevant to this script: names bound by `import` denote module
objects; the module type defines no `__setitem__`, so item assignment on a
module raises `TypeError`; execution of a module body stops at the first
uncaught exception.  No statement of the source file writes `os.environ` (the
only way a Python statement sets a process environment variable), so the
environment component is never written by any statement's effect. -/

/-- What a top-level name is bound to, as far as item assignment is
concerned: a module object, or any other object. -/
inductive Binding where
  | moduleB : Binding
  | objectB : Binding
  deriving Repr, DecidableEq

/-- Exceptions the modelled statements can raise. -/
inductive PyError where
  | typeError : PyError
  | nameError : PyError
  deriving Repr, DecidableEq

/-- Interpreter state: the process environment (`os.environ`) and the
module-level name bindings. -/
structure PyState where
  envVars : List (String × String)
  names : List (String × Binding)
  deriving Repr, DecidableEq

/-- Kind of object a name is currently bound to (most recent binding wins). -/
def bindingOf (names : List (String × Binding)) (x : String) : Option Binding :=
  (names.find? (fun p => p.fst == x)).map Prod.snd

/-- Effect of one top-level statement.  An `import` binds a module object;
an assignment binds an object; item assignment on a module raises
`TypeError` (modules do not support item assignment), on any other bound
object it is dispatched to the library object's `__setitem__` (modelled as
succeeding, since the only such target in the script is a Keras
`LayoutMap`); a bare expression statement leaves the state unchanged. -/
def execStmt (st : PyState) : Stmt → Except PyError PyState
  | .importMod m al => .ok { st with names := ((al.getD m), .moduleB) :: st.names }
  | .importFrom _ ns =>
      .ok { st with
            names := ns.map (fun p => ((p.snd.getD p.fst), Binding.moduleB)) ++ st.names }
  | .assign x _ => .ok { st with names := (x, .objectB) :: st.names }
  | .subscriptAssign t _ _ =>
      match bindingOf st.names t with
      | some .moduleB => .error .typeError
      | some .objectB => .ok st
      | none => .error .nameError
  | .exprStmt _ => .ok st
  | .funcDef x => .ok { st with names := (x, .objectB) :: st.names }
  | .classDef x => .ok { st with names := (x, .objectB) :: st.names }

/-- Result of running a statement list: either the whole list executed, or an
exception was raised at the statement with the given index and the statements
after it were never executed. -/
inductive RunResult where
  | finished : PyState → RunResult
  | raised : Nat → PyError → PyState → RunResult
  deriving Repr, DecidableEq

/-- Run a statement list starting at index `i`, stopping at the first
exception. -/
def runFrom (i : Nat) : List Stmt → PyState → RunResult
  | [], st => .finished st
  | s :: rest, st =>
      match execStmt st s with
      | .ok st2 => runFrom (i + 1) rest st2
      | .error e => .raised i e st

/-- Run the whole guide script from the empty initial state. -/
def runScript : RunResult := runFrom 0 script ⟨[], []⟩

/-- Environment component of a run result (at termination or at the point
the exception was raised). -/
def envOf : RunResult → List (String × String)
  | .finished st => st.envVars
  | .raised _ _ st => st.envVars

/-! ## Attribute paths and the distribution-state frame -/

/-- Dotted-name path of an expression (`keras.distribution.DeviceMesh` is
`["keras", "distribution", "DeviceMesh"]`); `none` if the expression is not a
pure dotted name. -/
def pathOf : Expr → Option (List String)
  | .atom (.prim (.name x)) => some [x]
  | .atom _ => none
  | .attr e f => (pathOf e).map (fun p => p ++ [f])
  | .call _ _ => none

/-- Whether the expression contains (anywhere in its call spine) a call whose
callee is the dotted name `p`.  Arguments are atoms, so calls can only nest
through the callee position. -/
def exprCallsInto (p : List String) : Expr → Bool
  | .atom _ => false
  | .attr e _ => exprCallsInto p e
  | .call f _ => pathOf f == some p || exprCallsInto p f

/-- Whether a statement contains a call into the dotted name `p`. -/
def stmtCallsInto (p : List String) : Stmt → Bool
  | .assign _ rhs => exprCallsInto p rhs
  | .exprStmt e => exprCallsInto p e
  | _ => false

/-- Dotted name of the library's global distribution setter. -/
def setDistPath : List String := ["keras", "distribution", "set_distribution"]

/-- The effect of one statement on the global Keras distribution state:
`some v` when the statement is a bare call
`keras.distribution.set_distribution(v)` (the documented sole writer of that
state in the external library), `none` when the statement leaves the
distribution state unchanged. -/
def distUpdate : Stmt → Option String
  | .exprStmt (.call f args) =>
      if pathOf f == some setDistPath then
        match args with
        | [⟨none, .prim (.name v)⟩] => some v
        | _ => none
      else none
  | _ => none

/-- Global distribution state after a statement list (name of the
distribution object last set, if any). -/
def distStateAfter (stmts : List Stmt) : Option String :=
  stmts.foldl (fun d s => match distUpdate s with | some v => some v | none => d) none

/-! ## Statement taxonomy

The guide's statements are imports, literals, and calls into objects rooted
in the imported libraries.  The checker threads the set of bound names: a
name enters the set through an `import` or through an assignment whose
right-hand side itself passed the check, so every bound name originates in
an imported library (or a literal).  Item assignment on a bound library
object (`layout_map[...] = ...`, and the attempted `os[...] = ...`) counts
as a call into that library object's item-assignment method. -/

/-- A primitive is closed over `bound`: any name it mentions is bound. -/
def primOK (bound : List String) : Prim → Bool
  | .name x => bound.contains x
  | _ => true

/-- An atom is closed over `bound`. -/
def atomOK (bound : List String) : Atom → Bool
  | .prim p => primOK bound p
  | .tuple ps => ps.all (primOK bound)
  | .listA ps => ps.all (primOK bound)

/-- An expression is a literal or a call/attribute chain rooted in a bound
name, with all arguments closed over `bound`. -/
def exprOK (bound : List String) : Expr → Bool
  | .atom a => atomOK bound a
  | .attr e _ => exprOK bound e
  | .call f args => exprOK bound f && args.all (fun a => atomOK bound a.value)

/-- Check a statement list top to bottom, threading the bound names.  Fails
on any function or class definition, and on any statement not built from
imports, literals, and calls rooted in bound (library-originated) names. -/
def checkStmts (bound : List String) : List Stmt → Bool
  | [] => true
  | s :: rest =>
      match s with
      | .importMod m al => checkStmts ((al.getD m) :: bound) rest
      | .importFrom _ ns =>
          checkStmts (ns.map (fun p => p.snd.getD p.fst) ++ bound) rest
      | .assign x rhs => exprOK bound rhs && checkStmts (x :: bound) rest
      | .subscriptAssign t k v =>
          bound.contains t && atomOK bound k && atomOK bound v
            && checkStmts bound rest
      | .exprStmt e => exprOK bound e && checkStmts bound rest
      | .funcDef _ => false
      | .classDef _ => false

/-- Whether a statement introduces a new callable or type
(a `def` or a `class`). -/
def definesCallableOrType : Stmt → Bool
  | .funcDef _ => true
  | .classDef _ => true
  | _ => false

/-! ## Name-usage discipline for meshes and distribution objects -/

/-- Dotted name of the library's device-mesh constructor. -/
def deviceMeshPath : List String := ["keras", "distribution", "DeviceMesh"]

/-- Whether an expression is (exactly) a `keras.distribution.DeviceMesh`
constructor call. -/
def isDeviceMeshCtor : Expr → Bool
  | .call f _ => pathOf f == some deviceMeshPath
  | _ => false

/-- Names bound in the statement list by assigning a
`keras.distribution.DeviceMesh` constructor call. -/
def meshNames (stmts : List Stmt) : List String :=
  stmts.filterMap (fun s =>
    match s with
    | .assign x rhs => if isDeviceMeshCtor rhs then some x else none
    | _ => none)

/-- A primitive mentions one of the names `xs`. -/
def primMentionsAny (xs : List String) : Prim → Bool
  | .name x => xs.contains x
  | _ => false

/-- An atom mentions one of the names `xs`. -/
def atomMentionsAny (xs : List String) : Atom → Bool
  | .prim p => primMentionsAny xs p
  | .tuple ps => ps.any (primMentionsAny xs)
  | .listA ps => ps.any (primMentionsAny xs)

/-- Every mention of a name from `xs` inside the expression occurs as an
argument of a call whose callee's dotted name is in `consumers`. -/
def useOK (consumers : List (List String)) (xs : List String) : Expr → Bool
  | .atom a => !(atomMentionsAny xs a)
  | .attr e _ => useOK consumers xs e
  | .call f args =>
      useOK consumers xs f &&
      (match pathOf f with
       | some p =>
           if consumers.contains p then true
           else args.all (fun a => !(atomMentionsAny xs a.value))
       | none => args.all (fun a => !(atomMentionsAny xs a.value)))

/-- Library constructors the script passes a device mesh to. -/
def meshConsumerPaths : List (List String) :=
  [["keras", "distribution", "TensorLayout"],
   ["keras", "distribution", "LayoutMap"],
   ["keras", "distribution", "DataParallel"],
   ["keras", "distribution", "ModelParallel"]]

/-- Statement-level usage discipline for the mesh names `xs`: a mesh name is
only ever (re)bound by a `DeviceMesh` constructor call, is never the target
of an item assignment, and every other mention of it is as an argument to
one of the four mesh-consuming library constructors. -/
def stmtMeshOK (xs : List String) : Stmt → Bool
  | .importMod _ _ => true
  | .importFrom _ _ => true
  | .assign x rhs =>
      (!(xs.contains x) || isDeviceMeshCtor rhs) && useOK meshConsumerPaths xs rhs
  | .subscriptAssign t k v =>
      !(xs.contains t) && !(atomMentionsAny xs k) && !(atomMentionsAny xs v)
  | .exprStmt e => useOK meshConsumerPaths xs e
  | .funcDef _ => true
  | .classDef _ => true

/-- Dotted name of the data-parallel strategy constructor. -/
def dataParallelPath : List String := ["keras", "distribution", "DataParallel"]

/-- Dotted name of the model-parallel strategy constructor. -/
def modelParallelPath : List String := ["keras", "distribution", "ModelParallel"]

/-- Whether an expression is a `DataParallel` or `ModelParallel` constructor
call. -/
def isDistCtor : Expr → Bool
  | .call f _ => pathOf f == some dataParallelPath || pathOf f == some modelParallelPath
  | _ => false

/-- The distribution-strategy assignments of the statement list, in order. -/
def distCtorAssigns (stmts : List Stmt) : List Stmt :=
  stmts.filter (fun s =>
    match s with
    | .assign _ rhs => isDistCtor rhs
    | _ => false)

/-- Statement-level usage discipline for the distribution-object names `xs`:
such a name is only ever bound by a `DataParallel`/`ModelParallel`
constructor call, is never the target of an item assignment, and every other
mention of it is as the argument of `keras.distribution.set_distribution`. -/
def stmtDistOK (xs : List String) : Stmt → Bool
  | .importMod _ _ => true
  | .importFrom _ _ => true
  | .assign x rhs =>
      (!(xs.contains x) || isDistCtor rhs) && useOK [setDistPath] xs rhs
  | .subscriptAssign t k v =>
      !(xs.contains t) && !(atomMentionsAny xs k) && !(atomMentionsAny xs v)
  | .exprStmt e => useOK [setDistPath] xs e
  | .funcDef _ => true
  | .classDef _ => true

/-! ## Syntactic extraction of constructor arguments -/

/-- Statement is an assignment to the name `x`. -/
def isAssignOf (x : String) : Stmt → Bool
  | .assign y _ => y == x
  | _ => false

/-- Argument lists of all `DeviceMesh` constructor calls appearing as the
right-hand side of an assignment, in script order. -/
def deviceMeshCalls (stmts : List Stmt) : List (List Arg) :=
  stmts.filterMap (fun s =>
    match s with
    | .assign _ (.call f args) =>
        if pathOf f == some deviceMeshPath then some args else none
    | _ => none)

/-- A `DeviceMesh` constructor call's argument list consists of exactly a
`shape` tuple of integers, an `axis_names` list of strings, and
`devices=devices`. -/
def meshCtorArgsOK : List Arg → Bool
  | [⟨some "shape", .tuple sh⟩, ⟨some "axis_names", .listA ax⟩,
     ⟨some "devices", .prim (.name d)⟩] =>
      sh.all (fun p => match p with | .int _ => true | _ => false)
        && ax.all (fun p => match p with | .str _ => true | _ => false)
        && d == "devices"
  | _ => false

/-- Shape tuple of a `DeviceMesh` constructor argument list. -/
def shapeOfArgs (args : List Arg) : Option (List Int) :=
  match args with
  | ⟨some "shape", .tuple sh⟩ :: _ =>
      sh.mapM (fun p => match p with | .int n => some n | _ => none)
  | _ => none

/-- Shapes of all `DeviceMesh` constructor calls of the script, in order. -/
def scriptMeshShapes : List (List Int) :=
  (deviceMeshCalls script).filterMap shapeOfArgs

/-- Argument lists of all `TensorLayout` constructor calls appearing as the
right-hand side of an assignment, in script order. -/
def tensorLayoutCalls (stmts : List Stmt) : List (List Arg) :=
  stmts.filterMap (fun s =>
    match s with
    | .assign _ (.call f args) =>
        if pathOf f == some ["keras", "distribution", "TensorLayout"]
        then some args else none
    | _ => none)

/-- Read one axis entry of an `axes=` tuple: a string is a named axis,
`None` is an unsharded axis. -/
def primToAxis : Prim → Option (Option String)
  | .str s => some (some s)
  | .noneV => some none
  | _ => none

/-- The `axes=` tuple of a `TensorLayout` constructor argument list. -/
def axesOfArgs (args : List Arg) : Option (List (Option String)) :=
  match args.find? (fun a => a.kw == some "axes") with
  | some ⟨_, .tuple ps⟩ => ps.mapM primToAxis
  | _ => none

/-- Axes tuples of all `TensorLayout` constructor calls of the script. -/
def scriptLayoutAxes : List (List (Option String)) :=
  (tensorLayoutCalls script).filterMap axesOfArgs

/-- The key/value pairs item-assigned into `layout_map`, in script order. -/
def layoutMapInserts (stmts : List Stmt) : List (Atom × Atom) :=
  stmts.filterMap (fun s =>
    match s with
    | .subscriptAssign t k v => if t == "layout_map" then some (k, v) else none
    | _ => none)

/-! ## Semantic objects

Semantic counterparts of the objects the script constructs.  Per the
source's own comment at line 74 (`# Assume it has 8 local GPUs.`),
`jax.devices("gpu")` is modelled as a list of 8 device identifiers. -/

/-- The `devices` list: 8 local GPUs, as the source's comment assumes. -/
def devices : List Nat := List.range 8

/-- A device mesh: shape, axis names, and the flat device list —
the three arguments of `keras.distribution.DeviceMesh` as the script
passes them. -/
structure DeviceMesh where
  shape : List Nat
  axis_names : List String
  devDevices : List Nat
  deriving Repr, DecidableEq

/-- A tensor layout: per-tensor-axis mesh-axis name (or `None`), over a
device mesh — the two arguments of `keras.distribution.TensorLayout`. -/
structure TensorLayout where
  axes : List (Option String)
  device_mesh : DeviceMesh
  deriving Repr, DecidableEq

/-- `mesh` (source lines 77-79). -/
def mesh : DeviceMesh := ⟨[2, 4], ["data", "model"], devices⟩

/-- `mesh_1d` (source lines 121-123). -/
def mesh_1d : DeviceMesh := ⟨[8], ["data"], devices⟩

/-- `mesh_2d` (source lines 181-183). -/
def mesh_2d : DeviceMesh := ⟨[2, 4], ["data", "model"], devices⟩

/-- `full_data_parallel_mesh` (source lines 219-221). -/
def full_data_parallel_mesh : DeviceMesh := ⟨[8, 1], ["data", "model"], devices⟩

/-- `more_data_parallel_mesh` (source lines 222-224). -/
def more_data_parallel_mesh : DeviceMesh := ⟨[4, 2], ["data", "model"], devices⟩

/-- `more_model_parallel_mesh` (source lines 225-227). -/
def more_model_parallel_mesh : DeviceMesh := ⟨[2, 4], ["data", "model"], devices⟩

/-- `full_model_parallel_mesh` (source lines 228-230). -/
def full_model_parallel_mesh : DeviceMesh := ⟨[1, 8], ["data", "model"], devices⟩

/-- All device meshes constructed by the script, in script order. -/
def scriptMeshes : List DeviceMesh :=
  [mesh, mesh_1d, mesh_2d, full_data_parallel_mesh, more_data_parallel_mesh,
   more_model_parallel_mesh, full_model_parallel_mesh]

/-- `layout_2d` (source line 85). -/
def layout_2d : TensorLayout := ⟨[some "model", some "data"], mesh⟩

/-- `replicated_layout_4d` (source lines 88-90). -/
def replicated_layout_4d : TensorLayout := ⟨[some "data", none, none, none], mesh⟩

/-- All tensor layouts constructed by the script, in script order. -/
def scriptLayouts : List TensorLayout := [layout_2d, replicated_layout_4d]

/-- Every axis entry of the layout is `None` or the name of an axis of its
own device mesh. -/
def axesValid (t : TensorLayout) : Bool :=
  t.axes.all (fun a =>
    match a with
    | none => true
    | some n => t.device_mesh.axis_names.contains n)

/-! ## Dense-layer variables and layout-map key matching

`keras.layers.Dense` owns a `kernel` variable and, exactly when `use_bias`
is true (the library default), a `bias` variable; a variable's `path` is
`<layer name>/<variable name>`.  `Input`, `Flatten` and `Dropout` layers own
no variables.  This is the documented variable scheme of the external
library, which the guide's own prose (source lines 163-178) relies on. -/

/-- Configuration of one `layers.Dense(...)` call: units, `use_bias`
(library default `true` when the call omits it), and the layer name when
given. -/
structure DenseCfg where
  units : Int
  use_bias : Bool
  layerName : Option String
  deriving Repr, DecidableEq

/-- Read a keyword argument's atom from an argument list. -/
def kwValue (k : String) (args : List Arg) : Option Atom :=
  (args.find? (fun a => a.kw == some k)).map Arg.value

/-- Extract a Dense-layer configuration from a
`layers.Dense(...)(...)` expression. -/
def denseCfgOfExpr : Expr → Option DenseCfg
  | .call (.call f args) _ =>
      if pathOf f == some ["layers", "Dense"] then
        match kwValue "units" args with
        | some (.prim (.int u)) =>
            some { units := u
                   use_bias :=
                     match kwValue "use_bias" args with
                     | some (.prim (.boolV b)) => b
                     | _ => true
                   layerName :=
                     match kwValue "name" args with
                     | some (.prim (.str n)) => some n
                     | _ => none }
        | _ => none
      else none
  | _ => none

/-- All Dense-layer configurations built by a statement list, in order. -/
def denseCalls (stmts : List Stmt) : List DenseCfg :=
  stmts.filterMap (fun s =>
    match s with
    | .assign _ e => denseCfgOfExpr e
    | _ => none)

/-- The statements executed after the `set_distribution(model_parallel)`
call — the segment of the script that builds the model governed by
`ModelParallel`. -/
def stmtsUnderModelParallel : List Stmt :=
  (script.dropWhile (fun s => distUpdate s != some "model_parallel")).drop 1

/-- Dense layers of the model built under `ModelParallel`. -/
def modelParallelDenses : List DenseCfg :=
  denseCalls stmtsUnderModelParallel

/-- Variable paths owned by one Dense layer: `name/kernel`, plus `name/bias`
exactly when `use_bias` is true. -/
def denseVariables (d : DenseCfg) : List String :=
  ((d.layerName.getD "dense") ++ "/kernel") ::
    (if d.use_bias then [(d.layerName.getD "dense") ++ "/bias"] else [])

/-- Variable paths of the model built under `ModelParallel` (its `Input`,
`Flatten` and `Dropout` layers own no variables). -/
def modelParallelVariablePaths : List String :=
  modelParallelDenses.flatMap denseVariables

/-- The character list `pat` occurs at the start of `s`. -/
def headMatch : List Char → List Char → Bool
  | [], _ => true
  | _ :: _, [] => false
  | c :: cs, d :: ds => c == d && headMatch cs ds

/-- The character list `pat` occurs somewhere in `s`. -/
def occursIn (pat : List Char) : List Char → Bool
  | [] => headMatch pat []
  | d :: ds => headMatch pat (d :: ds) || occursIn pat ds

/-- Whether `re.search(pat, s)` matches for a pattern `pat` containing no
regex metacharacters (such as the layout-map keys of the script): literal
substring occurrence.  `re.match` semantics would be `headMatch`, which
implies this. -/
def literalSearch (pat s : String) : Bool :=
  occursIn pat.toList s.toList

/-- A layout-map value in shortcut form: a tuple whose entries are each
`None` or the name of an axis of `mesh_2d`. -/
def tupleOfAxisNames : Atom → Bool
  | .tuple ps =>
      ps.all (fun p =>
        match p with
        | .noneV => true
        | .str s => mesh_2d.axis_names.contains s
        | _ => false)
  | _ => false

/-! ## Claim theorems -/

/-- Claim C1: running the script raises `TypeError` at the statement
`os["KERAS_BACKEND"] = "jax"` (statement index 5 — a module object does not
support item assignment).  At that point the environment holds no
`KERAS_BACKEND` entry, the `import keras` statement is the next one (index
6), and running only the first six statements already yields the same
result, so no statement after the failing one is ever executed. -/
theorem claim_C1_os_item_assignment_raises_typeerror :
    runScript = RunResult.raised 5 PyError.typeError ⟨[], [("os", Binding.moduleB)]⟩
    ∧ script.get? 5 = some osBackendAssign
    ∧ script.get? 6 = some (Stmt.importMod "keras" none)
    ∧ envOf runScript = []
    ∧ (envOf runScript).find? (fun p => p.fst == "KERAS_BACKEND") = none
    ∧ runFrom 0 (script.take 6) ⟨[], []⟩ = runScript :=
  ⟨rfl, rfl, rfl, rfl, rfl, rfl⟩

/-- Claim C2: the script introduces no function or class definition, and
every top-level statement is an import, a literal, or a call (including item
assignment) into an object rooted in the imported libraries, as certified by
the threading checker starting from no bound names. -/
theorem claim_C2_only_imports_literals_and_library_calls :
    checkStmts [] script = true
    ∧ script.all (fun s => !(definesCallableOrType s)) = true :=
  ⟨rfl, rfl⟩

/-- Claim C3: exactly two statements of the script write the global
distribution state — the bare calls
`keras.distribution.set_distribution(data_parallel)` and
`keras.distribution.set_distribution(model_parallel)`; a statement mentions
`set_distribution` if and only if it is one of these two, so every other
statement leaves the distribution state unchanged, and the state after the
script is the model-parallel strategy.  The script also defines no function
or class, hence no sharding/SPMD/collective logic of its own. -/
theorem claim_C3_exactly_two_set_distribution_calls :
    script.filterMap distUpdate = ["data_parallel", "model_parallel"]
    ∧ script.filter (fun s => (distUpdate s).isSome) =
        [Stmt.exprStmt (.call (lib2 "keras" "distribution" "set_distribution")
           [pa (nm "data_parallel")]),
         Stmt.exprStmt (.call (lib2 "keras" "distribution" "set_distribution")
           [pa (nm "model_parallel")])]
    ∧ script.all (fun s => stmtCallsInto setDistPath s == (distUpdate s).isSome) = true
    ∧ distStateAfter script = some "model_parallel"
    ∧ script.all (fun s => !(definesCallableOrType s)) = true :=
  ⟨rfl, rfl, rfl, rfl, rfl⟩

/-- Claim C4: every axis entry of every `TensorLayout` the script constructs
is `None` or an axis name of the layout's own device mesh; the syntactic
`axes=` tuples agree with the semantic layouts; both layouts are over `mesh`,
which is assigned earlier in the script (index 13, before indices 14 and 15)
by a `keras.distribution.DeviceMesh` constructor call. -/
theorem claim_C4_tensorlayout_axes_name_mesh_axes :
    scriptLayouts.all axesValid = true
    ∧ scriptLayoutAxes = scriptLayouts.map (fun t => t.axes)
    ∧ layout_2d.device_mesh = mesh
    ∧ replicated_layout_4d.device_mesh = mesh
    ∧ script.findIdx (isAssignOf "mesh") < script.findIdx (isAssignOf "layout_2d")
    ∧ script.findIdx (isAssignOf "layout_2d")
        < script.findIdx (isAssignOf "replicated_layout_4d")
    ∧ (script.get? (script.findIdx (isAssignOf "mesh"))).any
        (fun s => match s with | .assign _ rhs => isDeviceMeshCtor rhs | _ => false)
        = true := by
  refine ⟨rfl, rfl, rfl, rfl, ?_, ?_, rfl⟩ <;> decide

/-- Claim C5: the model built under `ModelParallel` has Dense layers `d1`
(with `use_bias=False`) and `d2` (bias by default), so its variable paths
are exactly `d1/kernel`, `d2/kernel`, `d2/bias`; the layout-map key
`d1/bias` is inserted by the script but is neither equal to nor a
regex (literal-substring) match of any of those paths, so that rule applies
to no variable. -/
theorem claim_C5_d1_bias_rule_matches_no_variable :
    modelParallelDenses =
      [⟨200, false, some "d1"⟩, ⟨10, true, some "d2"⟩]
    ∧ modelParallelVariablePaths = ["d1/kernel", "d2/kernel", "d2/bias"]
    ∧ (layoutMapInserts script).any (fun p => p.fst == sA "d1/bias") = true
    ∧ modelParallelVariablePaths.all
        (fun p => (p != "d1/bias") && !(literalSearch "d1/bias" p)) = true :=
  ⟨rfl, rfl, rfl, rfl⟩

/-- Claim C6: the script constructs seven device meshes, with shapes
(2,4), (8,), (2,4), (8,1), (4,2), (2,4), (1,8) in script order; the product
of each shape is 8, the length of the `devices` list each mesh is built
over (8 local GPUs, per the source's own assumption). -/
theorem claim_C6_mesh_shape_products_equal_device_count :
    scriptMeshShapes = [[2, 4], [8], [2, 4], [8, 1], [4, 2], [2, 4], [1, 8]]
    ∧ scriptMeshShapes = scriptMeshes.map (fun m => m.shape.map Int.ofNat)
    ∧ scriptMeshes.all
        (fun m => m.shape.prod == 8 && m.devDevices.length == 8) = true
    ∧ devices.length = 8 :=
  ⟨rfl, rfl, rfl, rfl⟩

/-- Claim C7: the script builds `layout_map` by the single constructor call
`keras.distribution.LayoutMap(mesh_2d)` over a script-constructed mesh, and
item-assigns exactly three entries into it, with keys `d1/kernel`,
`d1/bias`, `d2/output` and values that are tuples of mesh-axis names or
`None` (the library's shortcut form); the script defines no function or
class, hence no key-matching or regex logic of its own. -/
theorem claim_C7_layout_map_three_shortcut_entries :
    script.filter (isAssignOf "layout_map") =
      [Stmt.assign "layout_map"
        (.call (lib2 "keras" "distribution" "LayoutMap") [pa (nm "mesh_2d")])]
    ∧ (meshNames script).contains "mesh_2d" = true
    ∧ layoutMapInserts script =
        [(sA "d1/kernel", .tuple [.noneV, .str "model"]),
         (sA "d1/bias", .tuple [.str "model"]),
         (sA "d2/output", .tuple [.str "data", .noneV])]
    ∧ (layoutMapInserts script).all (fun p => tupleOfAxisNames p.snd) = true
    ∧ script.all (fun s => !(definesCallableOrType s)) = true :=
  ⟨rfl, rfl, rfl, rfl, rfl⟩

/-- Claim C8: every device mesh of the script is bound by an assignment
whose right-hand side is a `keras.distribution.DeviceMesh` constructor call
with `shape`, `axis_names` and `devices` arguments (seven such calls, and no
`DeviceMesh` call occurs anywhere else); every other mention of a mesh name
is as an argument to `TensorLayout`, `LayoutMap`, `DataParallel` or
`ModelParallel`; and the script defines no class (no mesh type of its
own). -/
theorem claim_C8_meshes_only_constructed_and_passed_on :
    meshNames script =
      ["mesh", "mesh_1d", "mesh_2d", "full_data_parallel_mesh",
       "more_data_parallel_mesh", "more_model_parallel_mesh",
       "full_model_parallel_mesh"]
    ∧ (deviceMeshCalls script).length = 7
    ∧ (deviceMeshCalls script).all meshCtorArgsOK = true
    ∧ script.all (fun s => stmtCallsInto deviceMeshPath s ==
        (match s with | .assign _ rhs => isDeviceMeshCtor rhs | _ => false)) = true
    ∧ script.all (stmtMeshOK (meshNames script)) = true
    ∧ script.all (fun s => !(definesCallableOrType s)) = true :=
  ⟨rfl, rfl, rfl, rfl, rfl, rfl⟩

/-- Claim C9: `DataParallel` and `ModelParallel` occur in the script only as
the three constructor calls (from a devices list, from the 1D mesh, and from
the 2D mesh with the layout map and `batch_dim_name="data"`), and the names
bound to the constructed objects are used only as the argument of
`set_distribution`; calls into the two constructors occur nowhere else, the
objects are never the target of an item assignment, and the script defines
no class (so neither class is subclassed or extended). -/
theorem claim_C9_parallel_strategies_only_at_call_sites :
    distCtorAssigns script =
      [Stmt.assign "data_parallel"
         (.call (lib2 "keras" "distribution" "DataParallel")
           [ka "devices" (nm "devices")]),
       Stmt.assign "data_parallel"
         (.call (lib2 "keras" "distribution" "DataParallel")
           [ka "device_mesh" (nm "mesh_1d")]),
       Stmt.assign "model_parallel"
         (.call (lib2 "keras" "distribution" "ModelParallel")
           [pa (nm "mesh_2d"), pa (nm "layout_map"),
            ka "batch_dim_name" (sA "data")])]
    ∧ script.all (fun s =>
        (stmtCallsInto dataParallelPath s || stmtCallsInto modelParallelPath s) ==
          (match s with | .assign _ rhs => isDistCtor rhs | _ => false)) = true
    ∧ script.all (stmtDistOK ["data_parallel", "model_parallel"]) = true
    ∧ script.all (fun s => !(definesCallableOrType s)) = true :=
  ⟨rfl, rfl, rfl, rfl⟩

end KerasDistGuide
